import Mathlib

/-!
Verification development for the social-listening-toolbox repository.

The Python sources are shallowly embedded: strings are `List Char`,
machine integers are `Int`/`Nat`, Python floats over exact inputs are
modelled with `ℚ`, fallible calls return `Except`/`Option`, and the
file-system / console effects of an analyzer run are reified as explicit
lists of written files and log events.  Each definition mirrors one
function (or one self-contained fragment of a function) of the sources,
named after it.
-/

/-- Strings of the embedded Python program: plain lists of characters. -/
abbrev Str := List Char

/-- The backquote character, written via its code point. -/
def backquote : Char := Char.ofNat 96

/-- Characters stripped by Python `str.strip()` (the ASCII whitespace set). -/
def isPySpace (c : Char) : Bool :=
  c = ' ' || c = '\t' || c = '\n' || c = '\x0d' || c = '\x0b' || c = '\x0c'

/-- Python `s.strip()`: remove leading and trailing whitespace. -/
def pyStrip (s : Str) : Str :=
  ((s.dropWhile isPySpace).reverse.dropWhile isPySpace).reverse

/-- Python `s.lower()` (ASCII case folding suffices for the embedded uses). -/
def pyLower (s : Str) : Str := s.map Char.toLower

/-- Python `needle in hay` on strings: substring containment. -/
def pyIn (needle : Str) : Str → Bool
  | [] => needle.isEmpty
  | c :: cs => needle.isPrefixOf (c :: cs) || pyIn needle cs

/-- Fuelled worker for Python `str.replace`: replaces non-overlapping
occurrences of `pat` left to right.  One unit of fuel is spent per examined
position, so fuel `s.length` always suffices. -/
def pyReplaceFuel (pat rep : Str) : Nat → Str → Str
  | _, [] => []
  | 0, s => s
  | fuel + 1, c :: cs =>
    if pat.isPrefixOf (c :: cs) then
      rep ++ pyReplaceFuel pat rep fuel ((c :: cs).drop pat.length)
    else
      c :: pyReplaceFuel pat rep fuel cs

/-- Python `s.replace(pat, rep)` (for the non-empty patterns the sources use). -/
def pyReplace (pat rep s : Str) : Str := pyReplaceFuel pat rep s.length s

/-! ## keyword_matrix_analyzer.py -/

/-- `DEMAND_SCORE_CAP_VIEWS = 1000000` (keyword_matrix_analyzer.py line 16). -/
def DEMAND_SCORE_CAP_VIEWS : ℚ := 1000000

/-- `COMPETITION_SCORE_CAP_SUBS = 2000000` (keyword_matrix_analyzer.py line 17). -/
def COMPETITION_SCORE_CAP_SUBS : ℚ := 2000000

/-- `statistics.mean(xs) if xs else 0` as used in `analyze_single_keyword`
(lines 42-43); the counts are the non-negative `int(...)` view and
subscriber counts. -/
def pymean (xs : List ℕ) : ℚ :=
  if xs.isEmpty then 0 else (xs.sum : ℚ) / (xs.length : ℚ)

/-- `demand_score = min(avg_views / DEMAND_SCORE_CAP_VIEWS, 1.0) * 100`
(keyword_matrix_analyzer.py line 45). -/
def demand_score (view_counts : List ℕ) : ℚ :=
  min (pymean view_counts / DEMAND_SCORE_CAP_VIEWS) 1 * 100

/-- `competition_score = min(avg_subs / COMPETITION_SCORE_CAP_SUBS, 1.0) * 100`
(keyword_matrix_analyzer.py line 46). -/
def competition_score (subscriber_counts : List ℕ) : ℚ :=
  min (pymean subscriber_counts / COMPETITION_SCORE_CAP_SUBS) 1 * 100

/-! ## reddit_analyzer.py -/

/-- A fetched Reddit submission, with the fields `run_reddit_analysis` reads. -/
structure RedditPost where
  subreddit : Str
  title : Str
  score : Int
  num_comments : Int
  url : Str
  selftext : Str
  deriving DecidableEq

/-- The problem predicate of `run_reddit_analysis` (lines 122 and 137):
`"problem" in post.title.lower() or "issue" in post.selftext.lower()`. -/
def is_problem_post (post : RedditPost) : Bool :=
  pyIn "problem".data (pyLower post.title) || pyIn "issue".data (pyLower post.selftext)

/-- `problem_posts`: the posts accumulated by the detection loop of
`run_reddit_analysis` (lines 118-123). -/
def problem_posts (posts : List RedditPost) : List RedditPost :=
  posts.filter is_problem_post

/-- `problem_density = (len(problem_posts) / len(posts) * 100) if posts else 0`
(reddit_analyzer.py line 125). -/
def problem_density (posts : List RedditPost) : ℚ :=
  if posts.isEmpty then 0
  else ((problem_posts posts).length : ℚ) / (posts.length : ℚ) * 100

/-! ## external_analyzer.py -/

/-- The age-bucket chain of `analyze_content_freshness` (lines 53-60):
`if age_days <= 30 ... elif 31 <= age_days <= 180 ... elif 181 <= age_days <= 365
... else ...`, returning the bucket position. -/
def freshness_bucket (age_days : Int) : Fin 4 :=
  if age_days ≤ 30 then 0
  else if 31 ≤ age_days ∧ age_days ≤ 180 then 1
  else if 181 ≤ age_days ∧ age_days ≤ 365 then 2
  else 3

/-- The `age_distribution` dictionary of `analyze_content_freshness`
(lines 42-60): initialised with the four fixed keys and incremented once per
video, then reported in insertion order (lines 62-64). -/
def age_distribution (ages : List Int) : List (Str × ℕ) :=
  [("Under 1 month".data, ages.countP (fun a => freshness_bucket a == 0)),
   ("1-6 months".data, ages.countP (fun a => freshness_bucket a == 1)),
   ("6-12 months".data, ages.countP (fun a => freshness_bucket a == 2)),
   ("Over 1 year".data, ages.countP (fun a => freshness_bucket a == 3))]

/-- Follows the spec text, not the source: assign a value the index of the
first boundary it satisfies, boundaries checked in ascending order, with the
final open-ended bucket receiving index `boundaries.length`. -/
def spec_first_boundary_bucket (boundaries : List Int) (a : Int) : ℕ :=
  boundaries.findIdx (fun b => a ≤ b)

/-! ## utils.py: the Gemini classification client -/

/-- `response.text.strip().replace("```json", "").replace("```", "").strip()`
(utils.py line 35): the markdown-fence clean-up applied before `json.loads`. -/
def cleaned_response (s : Str) : Str :=
  pyStrip (pyReplace "```".data [] (pyReplace "```json".data [] (pyStrip s)))

/-- The object returned by `model.generate_content`; its `.text` accessor can
itself raise (e.g. on a blocked response), so it is modelled as fallible. -/
structure GenResponse where
  text : Except Str Str

/-- A console diagnostic emitted by `get_gemini_analysis` on stderr. -/
inductive LogMsg
  | configError (e : Str)
  | apiError (e : Str)
  | rawResponse (s : Str)
  deriving DecidableEq

/-- The successful payload of `get_gemini_analysis`: raw text, or a decoded
JSON value (of abstract type `α`, the output type of `json.loads`). -/
inductive GemResult (α : Type)
  | text (s : Str)
  | json (v : α)
  deriving DecidableEq

/-- `get_gemini_analysis` (utils.py lines 10-44).  The external effects are
parameters: `configure` is the fallible `genai.configure`/model construction,
`generate` the fallible `model.generate_content`, and `json_loads` the JSON
decoder (`none` models a raised `JSONDecodeError`).  The result pairs the
emitted stderr messages with either `.ok` (the Python return value, `none`
being the `None` sentinel) or `.error` (an exception escaping to the caller,
which happens only when the raw-response print in the handler re-raises). -/
def get_gemini_analysis {α : Type} (configure : Except Str Unit)
    (generate : Except Str GenResponse) (json_loads : Str → Option α)
    (is_json_output : Bool) : List LogMsg × Except Str (Option (GemResult α)) :=
  match configure with
  | .error e => ([.configError e], .ok none)
  | .ok _ =>
    match generate with
    | .error e => ([.apiError e], .ok none)
    | .ok response =>
      match response.text with
      | .error e => ([.apiError e], .error e)
      | .ok t =>
        if is_json_output then
          match json_loads (cleaned_response t) with
          | some v => ([], .ok (some (.json v)))
          | none => ([.apiError "JSONDecodeError".data, .rawResponse t], .ok none)
        else ([], .ok (some (.text (pyStrip t))))

/-! ## utils.py: batch indexing and result merging -/

/-- A comment dictionary handed to `analyze_comments_batch`: an `id` slot and
the comment text. -/
structure YtComment where
  id : Int
  text : Str
  deriving DecidableEq

/-- Decimal rendering of an index, as the f-string `{i}` produces. -/
def natStr (n : ℕ) : Str := (Nat.repr n).data

/-- The indexing loop of `analyze_comments_batch` (utils.py lines 91-93):
`for i, comment in enumerate(comments): comment['id'] = i`.  The source
mutates the caller's dictionaries in place; the model returns the updated
sequence. -/
def analyze_comments_batch_indexed (comments : List YtComment) : List YtComment :=
  comments.enum.map fun ic => { ic.2 with id := Int.ofNat ic.1 }

/-- The prompt lines built in the same loop (utils.py line 94):
`f'{i}: "{comment["text"]}"'`. -/
def analyze_comments_batch_prompt_lines (comments : List YtComment) : List Str :=
  comments.enum.map fun ic => natStr ic.1 ++ ": \"".data ++ ic.2.text ++ "\"".data

/-- One entry of the `"results"` array of the classifier response. -/
structure BatchResultEntry where
  id : Int
  category : Str
  summary : Str
  deriving DecidableEq

/-- Insertion into a Python `dict` keyed by `int`: an existing key keeps its
position and is overwritten, a new key is appended. -/
def dictInsert {β : Type} (m : List (Int × β)) (k : Int) (v : β) : List (Int × β) :=
  if m.any (fun p => p.1 == k) then m.map (fun p => if p.1 == k then (k, v) else p)
  else m ++ [(k, v)]

/-- A Python `dict` built from a key/value sequence, later pairs winning. -/
def pyDict {β : Type} (kvs : List (Int × β)) : List (Int × β) :=
  kvs.foldl (fun m kv => dictInsert m kv.1 kv.2) []

/-- The key list of a Python `dict` (insertion order). -/
def pyDictKeys {β : Type} (m : List (Int × β)) : List Int := m.map Prod.fst

/-- The merge step of `analyze_comments_batch` (utils.py line 121):
`{result['id']: result for result in analysis_result['results']}`. -/
def analyze_comments_batch_merge (results : List BatchResultEntry) :
    List (Int × BatchResultEntry) :=
  pyDict (results.map fun r => (r.id, r))

/-- A post-like object handed to `analyze_posts_batch`: `id`, `title`,
`snippet`. -/
structure RedditRawPost where
  id : Int
  title : Str
  snippet : Str
  deriving DecidableEq

/-- The indexing loop of `analyze_posts_batch` (utils.py lines 191-193):
`for i, post in enumerate(posts): post['id'] = i`. -/
def analyze_posts_batch_indexed (posts : List RedditRawPost) : List RedditRawPost :=
  posts.enum.map fun ip => { ip.2 with id := Int.ofNat ip.1 }

/-- The returned id set of `analyze_posts_batch` (utils.py line 218):
`set(analysis_result['problem_post_ids'])`, modelled as the deduplicated
list (membership is what the callers consume). -/
def analyze_posts_batch_id_set (problem_post_ids : List Int) : List Int :=
  problem_post_ids.dedup

/-! ## reddit_analyzer.py / keyword_matrix_analyzer.py: output files -/

/-- `output_csv_file = output_file_base + ".csv"` (reddit_analyzer.py line 129). -/
def output_csv_file (output_file_base : Str) : Str :=
  output_file_base ++ ".csv".data

/-- `output_md_file = output_file_base + "_deep_dive.md"`
(reddit_analyzer.py line 97). -/
def output_md_file (output_file_base : Str) : Str :=
  output_file_base ++ "_deep_dive.md".data

/-- `output_filename = output_file_base + ".md"`
(keyword_matrix_analyzer.py line 149). -/
def keyword_matrix_output_filename (output_file_base : Str) : Str :=
  output_file_base ++ ".md".data

/-- The filename stem: the path with its final `.`-separated extension
removed (the path itself when it has no dot). -/
def file_stem (p : Str) : Str :=
  if p.contains '.' then ((p.reverse.dropWhile (fun c => c != '.')).drop 1).reverse
  else p

/-- The report files a `run_reddit_analysis` run writes (reddit_analyzer.py
lines 107-163): nothing when no posts were fetched (early return, line 114);
otherwise the CSV, plus the deep-dive Markdown when `deep_dive` is set, a
`context` was given, problem posts exist and the Gemini deep-dive text
(`deep_dive_report_text`, `none` modelling a failed call) is non-`None`. -/
def run_reddit_analysis_files (output_file_base : Str) (posts : List RedditPost)
    (deep_dive : Bool) (context : Option Str)
    (deep_dive_report_text : Option Str) : List Str :=
  if posts.isEmpty then []
  else
    output_csv_file output_file_base ::
      (if deep_dive then
        match context with
        | none => []
        | some _ =>
          if (problem_posts posts).isEmpty then []
          else
            match deep_dive_report_text with
            | none => []
            | some _ => [output_md_file output_file_base]
      else [])

/-! ## youtube_analyzer.py: comment analysis and report rendering -/

/-- A video to analyze: its id and snippet title. -/
structure YtVideo where
  id : Str
  title : Str
  deriving DecidableEq

/-- A fetched top-level comment: display text and like count. -/
structure RawYtComment where
  text : Str
  like_count : Int
  deriving DecidableEq

/-- The decoded per-comment verdict of `analyze_comment_sentiment`. -/
structure SentimentAnalysis where
  category : Str
  summary : Str
  deriving DecidableEq

/-- One row of the comment-analysis report (`result` dict, youtube_analyzer.py
lines 188-195). -/
structure CommentRecord where
  video_title : Str
  video_url : Str
  comment_text : Str
  like_count : Int
  category : Str
  summary : Str
  deriving DecidableEq

/-- `f"https://www.youtube.com/watch?v={video_id}"` (youtube_analyzer.py
line 190). -/
def video_url_of (video_id : Str) : Str :=
  "https://www.youtube.com/watch?v=".data ++ video_id

/-- The record/question accumulation loop of `analyze_video_comments`
(youtube_analyzer.py lines 177-198).  `comments_of` models
`get_video_comments` and `sentiment_of` models `analyze_comment_sentiment`
(`none` is its `None` failure sentinel); a verdict is kept only when present
with a truthy (non-empty) `category`, and `Question` summaries are also
collected. -/
def analyze_video_comments_loop (videos : List YtVideo)
    (comments_of : YtVideo → List RawYtComment)
    (sentiment_of : Str → Option SentimentAnalysis) :
    List CommentRecord × List Str :=
  videos.foldl (fun st video =>
    (comments_of video).foldl (fun st comment =>
      match sentiment_of comment.text with
      | some a =>
        if a.category ≠ [] then
          (st.1 ++ [{ video_title := video.title, video_url := video_url_of video.id,
                      comment_text := comment.text, like_count := comment.like_count,
                      category := a.category, summary := a.summary }],
           if a.category = "Question".data then st.2 ++ [a.summary] else st.2)
        else st
      | none => st) st) ([], [])

/-- A file-write outcome observable from the console. -/
inductive WriteEvent
  | csvWritten (path : Str)
  | csvFailed (e : Str)
  | htmlWritten (path : Str)
  | htmlFailed (e : Str)
  deriving DecidableEq

/-- `html_file_path = output_file.replace('.csv', '.html')`
(youtube_analyzer.py line 223). -/
def html_file_path (output_file : Str) : Str :=
  pyReplace ".csv".data ".html".data output_file

/-- The write attempt of `write_html_report` (youtube_analyzer.py
lines 367-372): the fallible write is caught, a failure is reported and the
function returns normally either way. -/
def write_html_report_events (output_file : Str) (html_write : Except Str Unit) :
    List WriteEvent :=
  match html_write with
  | .ok _ => [.htmlWritten (html_file_path output_file)]
  | .error e => [.htmlFailed e]

/-- `analyze_video_comments` (youtube_analyzer.py lines 171-219): builds the
records, returns early with `[]` when none, otherwise attempts the CSV write
(exceptions caught and reported, lines 206-214), then unconditionally calls
`write_html_report` (line 217), and returns `all_questions`.  `csv_write` and
`html_write` model the two fallible file writes; the first component lists
the write outcomes in order, the second is the returned question list. -/
def analyze_video_comments (videos : List YtVideo)
    (comments_of : YtVideo → List RawYtComment)
    (sentiment_of : Str → Option SentimentAnalysis) (output_file : Str)
    (csv_write html_write : Except Str Unit) : List WriteEvent × List Str :=
  let st := analyze_video_comments_loop videos comments_of sentiment_of
  if st.1.isEmpty then ([], [])
  else
    ((match csv_write with
      | .ok _ => [WriteEvent.csvWritten output_file]
      | .error e => [WriteEvent.csvFailed e]) ++
        write_html_report_events output_file html_write,
     st.2)

/-! ## Concrete sample data for the numbered scenarios -/

/-- A sample fetched post with the given title and body. -/
def mkPost (t b : String) : RedditPost :=
  { subreddit := "r/test".data, title := t.data, score := 1, num_comments := 0,
    url := "https://example.com/p".data, selftext := b.data }

/-- Ten fetched posts of which exactly three satisfy the problem predicate
(two by "problem" in the title, one by "issue" in the body). -/
def sample_posts_ten : List RedditPost :=
  [mkPost "Problem with login" "the app logs me out",
   mkPost "Great weather today" "all good here",
   mkPost "My setup tour" "sharing my desk",
   mkPost "Another problem after update" "since v2 it fails",
   mkPost "Weekly thread" "chat about anything",
   mkPost "Best keyboard?" "looking for advice",
   mkPost "Release notes" "there is an issue with saving",
   mkPost "Meme monday" "have fun",
   mkPost "Show and tell" "my new build",
   mkPost "Thanks devs" "love the tool"]

/-- A sample JSON decoder recognising exactly the document `[1, 2]`. -/
def sample_json_loads : Str → Option ℕ :=
  fun s => if s = "[1, 2]".data then some 0 else none

/-- A response body consisting of a JSON document wrapped in triple-backtick
code fences, optionally with a language tag after the opening fence — the
shape the spec requires the parser to tolerate. -/
def fenced_body (tag doc : Str) : Str :=
  "```".data ++ (tag ++ ('\n' :: (doc ++ ('\n' :: "```".data))))

/-! ## Helper lemmas -/

theorem pymean_nonneg (xs : List ℕ) : 0 ≤ pymean xs := by
  unfold pymean
  split
  · exact le_refl 0
  · positivity

theorem capped_percent_nonneg (x cap : ℚ) (hx : 0 ≤ x) (hcap : 0 < cap) :
    0 ≤ min (x / cap) 1 * 100 := by
  have h := le_min (div_nonneg hx hcap.le) (zero_le_one : (0 : ℚ) ≤ 1)
  nlinarith

theorem capped_percent_le_100 (x cap : ℚ) : min (x / cap) 1 * 100 ≤ 100 := by
  have h := min_le_right (x / cap) (1 : ℚ)
  nlinarith

/-! ## Claims -/

/-- C1: for every input sequence handed to the batchers, the item at 0-based
position `i` is assigned index `i` in its `id` field, so the assigned indices
are exactly `{0, …, n-1}` in order — no gaps, no duplicates — regardless of
item content. -/
theorem c1_index_contiguity (comments : List YtComment) (posts : List RedditRawPost) :
    (analyze_comments_batch_indexed comments).map YtComment.id =
      (List.range comments.length).map Int.ofNat ∧
    (analyze_posts_batch_indexed posts).map RedditRawPost.id =
      (List.range posts.length).map Int.ofNat := by
  constructor
  · unfold analyze_comments_batch_indexed
    rw [← List.enum_map_fst comments, List.map_map, List.map_map]
    rfl
  · unfold analyze_posts_batch_indexed
    rw [← List.enum_map_fst posts, List.map_map, List.map_map]
    rfl

/-- C5: the problem-density ratio of `run_reddit_analysis` equals
`count(matching) / count(all) * 100` (so 3 of 10 posts give exactly 30, which
prints as 30.00%), and it is defined as 0 on an empty record collection
rather than a division-by-zero fault. -/
theorem c5_density_formula (posts : List RedditPost) :
    (posts ≠ [] →
      problem_density posts =
        ((problem_posts posts).length : ℚ) / (posts.length : ℚ) * 100) ∧
    problem_density [] = 0 ∧
    (problem_posts sample_posts_ten).length = 3 ∧
    sample_posts_ten.length = 10 ∧
    problem_density sample_posts_ten = 30 := by
  refine ⟨?_, by decide, by decide, by decide, ?_⟩
  · intro h
    rcases posts with _ | ⟨p, l⟩
    · exact absurd rfl h
    · simp [problem_density]
  · have h3 : (problem_posts sample_posts_ten).length = 3 := by decide
    have h10 : sample_posts_ten.length = 10 := by decide
    have hne : sample_posts_ten.isEmpty = false := by decide
    simp only [problem_density, hne, h3, h10]
    norm_num

/-- C6: with boundaries `[30, 180, 365]` the freshness bucketing assigns every
record to exactly one of four buckets — the first boundary it satisfies in
ascending order, the last bucket open-ended — so `[5, 45, 200, 400, 10]`
yields counts `[2, 1, 1, 1]`, and all four buckets appear in the reported
output even when one count is 0. -/
theorem c6_bucket_completeness (a : Int) (ages : List Int) :
    ((freshness_bucket a : Fin 4) : ℕ) = spec_first_boundary_bucket [30, 180, 365] a ∧
    (age_distribution ages).map Prod.fst =
      ["Under 1 month".data, "1-6 months".data, "6-12 months".data, "Over 1 year".data] ∧
    (age_distribution ages).length = 4 ∧
    ages.countP (fun x => freshness_bucket x == 0) +
      ages.countP (fun x => freshness_bucket x == 1) +
      ages.countP (fun x => freshness_bucket x == 2) +
      ages.countP (fun x => freshness_bucket x == 3) = ages.length ∧
    (age_distribution [5, 45, 200, 400, 10]).map Prod.snd = [2, 1, 1, 1] := by
  refine ⟨?_, by simp [age_distribution], by simp [age_distribution], ?_, by decide⟩
  · unfold freshness_bucket spec_first_boundary_bucket
    by_cases h1 : a ≤ 30
    · simp [List.findIdx, List.findIdx.go, h1]
    · by_cases h2 : a ≤ 180
      · have h31 : 31 ≤ a := by omega
        simp [List.findIdx, List.findIdx.go, h1, h2, h31]
      · by_cases h3 : a ≤ 365
        · have h181 : 181 ≤ a := by omega
          simp [List.findIdx, List.findIdx.go, h1, h2, h3, h181]
        · have h366 : ¬(181 ≤ a ∧ a ≤ 365) := by omega
          have h31 : ¬(31 ≤ a ∧ a ≤ 180) := by omega
          simp [List.findIdx, List.findIdx.go, h1, h2, h3, h366, h31]
          rfl
  · induction ages with
    | nil => simp
    | cons x l ih =>
      rcases hb : freshness_bucket x with ⟨bv, hbv⟩
      interval_cases bv <;> simp [hb, List.countP_cons] <;> omega

/-- C10: for every keyword `analyze_single_keyword` can return on, the demand
and competition scores lie in `[0, 100]`: each is `min(average / cap, 1) * 100`
over non-negative view and subscriber counts. -/
theorem c10_score_bounds (view_counts subscriber_counts : List ℕ) :
    0 ≤ demand_score view_counts ∧ demand_score view_counts ≤ 100 ∧
    0 ≤ competition_score subscriber_counts ∧ competition_score subscriber_counts ≤ 100 := by
  refine ⟨?_, ?_, ?_, ?_⟩
  · exact capped_percent_nonneg _ _ (pymean_nonneg view_counts) (by norm_num [DEMAND_SCORE_CAP_VIEWS])
  · exact capped_percent_le_100 _ _
  · exact capped_percent_nonneg _ _ (pymean_nonneg subscriber_counts) (by norm_num [COMPETITION_SCORE_CAP_SUBS])
  · exact capped_percent_le_100 _ _

/-- Witness for C5: the non-empty branch of the density formula, evaluated on
the ten sample posts. -/
theorem c5_density_formula_witness :
    problem_density sample_posts_ten =
      ((problem_posts sample_posts_ten).length : ℚ) / (sample_posts_ten.length : ℚ) * 100 :=
  (c5_density_formula sample_posts_ten).1 (by decide)

theorem mem_pyDictKeys_dictInsert {β : Type} (m : List (Int × β)) (k : Int) (v : β)
    (a : Int) : a ∈ pyDictKeys (dictInsert m k v) ↔ a ∈ pyDictKeys m ∨ a = k := by
  unfold dictInsert pyDictKeys
  by_cases h : m.any (fun p => p.1 == k)
  · rw [if_pos h]
    have hk : k ∈ m.map Prod.fst := by
      rcases List.any_eq_true.mp h with ⟨p, hp, he⟩
      exact List.mem_map.mpr ⟨p, hp, beq_iff_eq.mp he⟩
    have hkeys : (m.map (fun p => if p.1 == k then (k, v) else p)).map Prod.fst =
        m.map Prod.fst := by
      rw [List.map_map]
      refine List.map_congr_left ?_
      intro p _
      by_cases hp : p.1 = k
      · simp [hp]
      · simp [hp]
    rw [hkeys]
    constructor
    · exact Or.inl
    · rintro (hm | rfl)
      · exact hm
      · exact hk
  · rw [if_neg h]
    simp

theorem mem_pyDictKeys_pyDict_aux {β : Type} (kvs : List (Int × β)) :
    ∀ (m : List (Int × β)) (a : Int),
      (a ∈ pyDictKeys (kvs.foldl (fun m kv => dictInsert m kv.1 kv.2) m) ↔
        a ∈ pyDictKeys m ∨ a ∈ kvs.map Prod.fst) := by
  induction kvs with
  | nil => intro m a; simp
  | cons kv kvs ih =>
    intro m a
    rw [List.foldl_cons, ih]
    rw [mem_pyDictKeys_dictInsert]
    simp
    tauto

theorem mem_pyDictKeys_pyDict {β : Type} (kvs : List (Int × β)) (a : Int) :
    a ∈ pyDictKeys (pyDict kvs) ↔ a ∈ kvs.map Prod.fst := by
  unfold pyDict
  rw [mem_pyDictKeys_pyDict_aux]
  simp [pyDictKeys]

/-- Counterexample to C2: with a one-comment batch (indices `{0}`) and a
classifier response carrying index 5, the mapping returned by
`analyze_comments_batch_merge` contains the out-of-range key 5; likewise
`analyze_posts_batch_id_set` passes the out-of-range id 7 through for a
one-post batch. -/
theorem c2_counterexample :
    (5 : Int) ∈ pyDictKeys (analyze_comments_batch_merge
      [{ id := 5, category := "Other".data, summary := "ok".data }]) ∧
    (analyze_comments_batch_indexed [{ id := 0, text := "hello".data }]).length = 1 ∧
    ¬((5 : Int) < 1) ∧
    (7 : Int) ∈ analyze_posts_batch_id_set [7] ∧
    (analyze_posts_batch_indexed [{ id := 0, title := "t".data, snippet := "s".data }]).length = 1 ∧
    ¬((7 : Int) < 1) := by decide

/-- C2 amended: the merge step of `analyze_comments_batch` applies no range
filter at all — its key set is exactly the set of indices appearing in the
response (and `analyze_posts_batch` likewise passes the response ids through
as a set); out-of-range indices are kept, not excluded, though the merge
itself never aborts. -/
theorem c2_amended (results : List BatchResultEntry) (ids : List Int) (k : Int) :
    (k ∈ pyDictKeys (analyze_comments_batch_merge results) ↔
      k ∈ results.map BatchResultEntry.id) ∧
    (k ∈ analyze_posts_batch_id_set ids ↔ k ∈ ids) := by
  constructor
  · unfold analyze_comments_batch_merge
    rw [mem_pyDictKeys_pyDict]
    simp [List.map_map]
  · simp [analyze_posts_batch_id_set, List.mem_dedup]

/-- C3: for each failure mode of `get_gemini_analysis` — configuration
failure, an exception in the generate call, or a JSON decode failure with
`is_json_output` — the function prints an error message and returns the
`None` sentinel; no exception propagates to the caller in these cases. -/
theorem c3_failure_sentinel {α : Type} (e : Str) (gen : Except Str GenResponse)
    (json_loads : Str → Option α) (is_json_output : Bool) (t : Str) :
    ((get_gemini_analysis (Except.error e) gen json_loads is_json_output).2 =
        Except.ok none ∧
      (get_gemini_analysis (Except.error e) gen json_loads is_json_output).1 ≠ []) ∧
    ((get_gemini_analysis (Except.ok ()) (Except.error e) json_loads is_json_output).2 =
        Except.ok none ∧
      (get_gemini_analysis (Except.ok ()) (Except.error e) json_loads is_json_output).1 ≠ []) ∧
    (json_loads (cleaned_response t) = none →
      (get_gemini_analysis (Except.ok ()) (Except.ok ⟨Except.ok t⟩) json_loads true).2 =
          Except.ok none ∧
        (get_gemini_analysis (Except.ok ()) (Except.ok ⟨Except.ok t⟩) json_loads true).1 ≠ []) := by
  refine ⟨⟨rfl, by simp [get_gemini_analysis]⟩, ⟨rfl, by simp [get_gemini_analysis]⟩, ?_⟩
  intro h
  simp [get_gemini_analysis, h]

/-- Witness for C3: the JSON-decode-failure mode at a concrete response,
decoder and text, via the theorem itself. -/
theorem c3_failure_sentinel_witness :
    (get_gemini_analysis (Except.ok ()) (Except.ok ⟨Except.ok "x".data⟩)
        (fun _ : Str => (none : Option ℕ)) true).2 = Except.ok none :=
  ((c3_failure_sentinel "boom".data (Except.ok ⟨Except.ok "x".data⟩)
      (fun _ : Str => (none : Option ℕ)) true "x".data).2.2 rfl).1

/-- Counterexample to C7: with zero fetched posts `run_reddit_analysis`
returns early and writes nothing — in particular no header-only CSV — and
with zero analyzable comments `analyze_video_comments` likewise returns `[]`
without attempting any CSV or HTML write. -/
theorem c7_counterexample :
    run_reddit_analysis_files "report".data [] false none none = [] ∧
    output_csv_file "report".data ∉ run_reddit_analysis_files "report".data [] false none none ∧
    analyze_video_comments [] (fun _ => []) (fun _ => none) "out.csv".data
        (Except.ok ()) (Except.ok ()) = ([], []) := by
  refine ⟨rfl, by decide, rfl⟩

/-- C7 amended: when zero items are fetched (or zero analyzable results
remain), the analyzers return early after a console message without crashing,
and write no report artifact at all: no CSV (not even a header-only one), no
Markdown, no HTML. -/
theorem c7_amended (base : Str) (deep_dive : Bool) (context : Option Str)
    (ddtext : Option Str) (comments_of : YtVideo → List RawYtComment)
    (sentiment_of : Str → Option SentimentAnalysis) (out : Str)
    (csv_write html_write : Except Str Unit) :
    run_reddit_analysis_files base [] deep_dive context ddtext = [] ∧
    analyze_video_comments [] comments_of sentiment_of out csv_write html_write = ([], []) :=
  ⟨rfl, rfl⟩

/-- C9: a file-system write failure in one report format is reported and
neither crashes nor prevents sibling formats: if the CSV write of
`analyze_video_comments` fails, the failure is logged and the HTML report is
still attempted for the same run (and the returned questions are unaffected);
an HTML write failure is likewise caught and reported. -/
theorem c9_write_fault_isolation (videos : List YtVideo)
    (comments_of : YtVideo → List RawYtComment)
    (sentiment_of : Str → Option SentimentAnalysis) (output_file : Str)
    (e e2 : Str) (html_write : Except Str Unit)
    (h : (analyze_video_comments_loop videos comments_of sentiment_of).1 ≠ []) :
    analyze_video_comments videos comments_of sentiment_of output_file
        (Except.error e) html_write =
      (WriteEvent.csvFailed e :: write_html_report_events output_file html_write,
        (analyze_video_comments_loop videos comments_of sentiment_of).2) ∧
    write_html_report_events output_file (Except.error e2) = [WriteEvent.htmlFailed e2] := by
  constructor
  · simp [analyze_video_comments, h]
  · rfl

/-- Witness for C9: a one-video, one-comment run whose CSV write fails with
"disk full" still produces the HTML report. -/
theorem c9_write_fault_isolation_witness :
    analyze_video_comments [{ id := "v1".data, title := "T".data }]
        (fun _ => [{ text := "hi".data, like_count := 3 }])
        (fun _ => some { category := "Other".data, summary := "s".data })
        "out.csv".data (Except.error "disk full".data) (Except.ok ()) =
      ([WriteEvent.csvFailed "disk full".data,
        WriteEvent.htmlWritten (html_file_path "out.csv".data)], []) :=
  (c9_write_fault_isolation [{ id := "v1".data, title := "T".data }]
      (fun _ => [{ text := "hi".data, like_count := 3 }])
      (fun _ => some { category := "Other".data, summary := "s".data })
      "out.csv".data "disk full".data "x".data (Except.ok ()) (by decide)).1

theorem pyReplaceFuel_head_match (pat rep : Str) (hp : pat ≠ []) (t : Str) (fuel : ℕ) :
    pyReplaceFuel pat rep (fuel + 1) (pat ++ t) = rep ++ pyReplaceFuel pat rep fuel t := by
  rcases pat with _ | ⟨p, ps⟩
  · exact absurd rfl hp
  · rw [List.cons_append, pyReplaceFuel]
    have hpre : (p :: ps).isPrefixOf (p :: (ps ++ t)) = true := by
      rw [List.isPrefixOf_iff_prefix, ← List.cons_append]
      exact List.prefix_append _ _
    rw [if_pos hpre]
    congr 1
    rw [← List.cons_append, List.drop_left]

theorem pyReplaceFuel_fuel_irrel (pat rep : Str) (hp : pat ≠ []) :
    ∀ (fuel₁ : ℕ) (s : Str), s.length ≤ fuel₁ → ∀ fuel₂ : ℕ, s.length ≤ fuel₂ →
      pyReplaceFuel pat rep fuel₁ s = pyReplaceFuel pat rep fuel₂ s := by
  intro fuel₁
  induction fuel₁ with
  | zero =>
    intro s hs fuel₂ _
    have h : s = [] := List.eq_nil_of_length_eq_zero (Nat.le_zero.mp hs)
    subst h
    cases fuel₂ <;> rfl
  | succ f ih =>
    intro s hs fuel₂ hs₂
    rcases s with _ | ⟨c, cs⟩
    · cases fuel₂ <;> rfl
    · rcases fuel₂ with _ | f₂
      · simp at hs₂
      · rw [pyReplaceFuel, pyReplaceFuel]
        have hpl : 0 < pat.length := List.length_pos.mpr hp
        by_cases hc : pat.isPrefixOf (c :: cs)
        · rw [if_pos hc, if_pos hc]
          congr 1
          have hd : ((c :: cs).drop pat.length).length = (c :: cs).length - pat.length :=
            List.length_drop _ _
          apply ih
          · rw [hd]; simp only [List.length_cons] at hs ⊢; omega
          · rw [hd]; simp only [List.length_cons] at hs₂ ⊢; omega
        · rw [if_neg hc, if_neg hc]
          congr 1
          apply ih
          · simp only [List.length_cons] at hs; omega
          · simp only [List.length_cons] at hs₂; omega

theorem pyReplaceFuel_append_of_head_ne (pat rep : Str) (c0 : Char) (p' : Str)
    (hpat : pat = c0 :: p') (t : Str) :
    ∀ (s : Str), (∀ c ∈ s, c ≠ c0) → ∀ fuel : ℕ,
      pyReplaceFuel pat rep (s.length + fuel) (s ++ t) = s ++ pyReplaceFuel pat rep fuel t := by
  intro s
  induction s with
  | nil => intro _ fuel; simp
  | cons c cs ih =>
    intro hs fuel
    have hc : c ≠ c0 := hs c (List.mem_cons_self _ _)
    have hlen : (c :: cs).length + fuel = (cs.length + fuel) + 1 := by
      simp only [List.length_cons]; omega
    rw [hlen, List.cons_append, pyReplaceFuel]
    have hb : (c0 == c) = false := beq_eq_false_iff_ne.mpr (fun he => hc he.symm)
    have hnp : pat.isPrefixOf (c :: (cs ++ t)) = false := by
      subst hpat
      simp [List.isPrefixOf, hb]
    rw [hnp]
    simp only [Bool.false_eq_true, if_false]
    rw [ih (fun x hx => hs x (List.mem_cons_of_mem _ hx)) fuel, List.cons_append]

theorem pyReplace_head_match (pat rep t : Str) (hp : pat ≠ []) :
    pyReplace pat rep (pat ++ t) = rep ++ pyReplace pat rep t := by
  unfold pyReplace
  have hpl : 0 < pat.length := List.length_pos.mpr hp
  have h1 : (pat ++ t).length = (pat.length - 1 + t.length) + 1 := by
    simp only [List.length_append]; omega
  rw [h1, pyReplaceFuel_head_match pat rep hp t _]
  congr 1
  exact pyReplaceFuel_fuel_irrel pat rep hp _ t (by omega) _ (le_refl _)

theorem pyReplace_append_of_head_ne (pat rep : Str) (c0 : Char) (p' : Str)
    (hpat : pat = c0 :: p') (s t : Str) (hs : ∀ c ∈ s, c ≠ c0) :
    pyReplace pat rep (s ++ t) = s ++ pyReplace pat rep t := by
  unfold pyReplace
  rw [List.length_append]
  exact pyReplaceFuel_append_of_head_ne pat rep c0 p' hpat t s hs t.length

/-- Counterexample to C8: with base path "report", the Reddit run writes its
CSV under stem "report" but its deep-dive Markdown under the different stem
"report_deep_dive" — not `base + ".md"` — so not all artifacts of a run share
one stem with only the extension differing. -/
theorem c8_counterexample :
    file_stem (output_csv_file "report".data) = "report".data ∧
    file_stem (output_md_file "report".data) = "report_deep_dive".data ∧
    output_md_file "report".data ≠ "report".data ++ ".md".data ∧
    file_stem (output_md_file "report".data) ≠ file_stem (output_csv_file "report".data) := by
  decide

/-- C8 amended: every report file extends the caller-supplied base path: the
CSV appends ".csv", the keyword-matrix Markdown appends ".md", and the
YouTube HTML path replaces a final ".csv" extension by ".html" (same stem);
the Reddit deep-dive Markdown however appends "_deep_dive.md", so its stem is
the base plus "_deep_dive" rather than the bare base. -/
theorem c8_amended (base stem : Str) (hstem : ∀ c ∈ stem, c ≠ '.') :
    output_csv_file base = base ++ ".csv".data ∧
    output_md_file base = base ++ "_deep_dive.md".data ∧
    keyword_matrix_output_filename base = base ++ ".md".data ∧
    html_file_path (stem ++ ".csv".data) = stem ++ ".html".data := by
  refine ⟨rfl, rfl, rfl, ?_⟩
  unfold html_file_path
  rw [pyReplace_append_of_head_ne ".csv".data ".html".data '.' "csv".data rfl
    stem ".csv".data hstem]
  rfl

/-- Witness for C8 amended: a dot-free stem "x", via the theorem itself. -/
theorem c8_amended_witness :
    html_file_path ("x".data ++ ".csv".data) = "x".data ++ ".html".data :=
  (c8_amended "out".data "x".data (by decide)).2.2.2

theorem dropWhile_head_false (p : Char → Bool) (d : Char) (ds : Str)
    (h : (d :: ds).dropWhile p = d :: ds) : p d = false := by
  have h2 := (List.dropWhile_eq_self_iff).mp h (by simp)
  simpa using h2

theorem reverse_snoc_head (u : Str) (b : Char) : (u ++ [b]).reverse = b :: u.reverse := by simp

theorem pyStrip_eq_self_of (s : Str) (h1 : s.dropWhile isPySpace = s)
    (h2 : s.reverse.dropWhile isPySpace = s.reverse) : pyStrip s = s := by
  unfold pyStrip
  rw [h1, h2, List.reverse_reverse]

theorem pyStrip_newline_wrap (doc : Str) (hfront : doc.dropWhile isPySpace = doc)
    (hback : doc.reverse.dropWhile isPySpace = doc.reverse) :
    pyStrip ('\n' :: (doc ++ ['\n'])) = doc := by
  rcases doc with _ | ⟨d, ds⟩
  · rfl
  · have hd : isPySpace d = false := dropWhile_head_false isPySpace d ds hfront
    obtain ⟨e, es, hrev⟩ : ∃ e es, (d :: ds).reverse = e :: es := by
      rcases h : (d :: ds).reverse with _ | ⟨e, es⟩
      · have hl := congrArg List.length h
        simp at hl
      · exact ⟨e, es, rfl⟩
    have he : isPySpace e = false := by
      rw [hrev] at hback
      exact dropWhile_head_false isPySpace e es hback
    unfold pyStrip
    have hnl : isPySpace '\n' = true := by decide
    have hstep1 : ('\n' :: (d :: ds ++ ['\n'])).dropWhile isPySpace = d :: (ds ++ ['\n']) := by
      rw [List.dropWhile_cons, if_pos hnl, List.cons_append, List.dropWhile_cons,
        if_neg (by simp [hd])]
    rw [hstep1]
    have hrev2 : (d :: (ds ++ ['\n'])).reverse = '\n' :: (d :: ds).reverse := by
      rw [← List.cons_append, reverse_snoc_head]
    rw [hrev2, hrev, List.dropWhile_cons, if_pos hnl, List.dropWhile_cons,
      if_neg (by simp [he]), ← hrev, List.reverse_reverse]

theorem pyReplaceFuel_json_skip_fence (r : Str) (fuel : ℕ) :
    pyReplaceFuel "```json".data [] (fuel + 3) ("```".data ++ '\n' :: r) =
      "```".data ++ pyReplaceFuel "```json".data [] fuel ('\n' :: r) := by
  have hnp1 : List.isPrefixOf "```json".data
      (backquote :: backquote :: backquote :: '\n' :: r) = false := rfl
  have hnp2 : List.isPrefixOf "```json".data (backquote :: backquote :: '\n' :: r) = false := rfl
  have hnp3 : List.isPrefixOf "```json".data (backquote :: '\n' :: r) = false := rfl
  show pyReplaceFuel "```json".data [] (fuel + 3)
      (backquote :: backquote :: backquote :: '\n' :: r) = _
  rw [pyReplaceFuel, hnp1, if_neg Bool.false_ne_true]
  rw [pyReplaceFuel, hnp2, if_neg Bool.false_ne_true]
  rw [pyReplaceFuel, hnp3, if_neg Bool.false_ne_true]
  exact rfl

theorem cleaned_response_fenced (doc tag : Str) (htag : tag = [] ∨ tag = "json".data)
    (hbq : ∀ c ∈ doc, c ≠ backquote)
    (hfront : doc.dropWhile isPySpace = doc)
    (hback : doc.reverse.dropWhile isPySpace = doc.reverse) :
    cleaned_response (fenced_body tag doc) = doc := by
  have hbq3 : "``".data ++ [backquote] = "```".data := rfl
  have hmid : ∀ c ∈ ('\n' :: (doc ++ ['\n'])), c ≠ backquote := by
    intro c hc
    rcases List.mem_cons.mp hc with rfl | hc2
    · decide
    · rcases List.mem_append.mp hc2 with hcd | hc1
      · exact hbq c hcd
      · have hcn : c = '\n' := List.mem_singleton.mp hc1
        subst hcn
        decide
  -- the fenced body is already stripped
  have hcons : fenced_body tag doc =
      backquote :: ("``".data ++ (tag ++ ('\n' :: (doc ++ ('\n' :: "```".data))))) := rfl
  have hsnoc : fenced_body tag doc =
      ("```".data ++ (tag ++ ('\n' :: (doc ++ ('\n' :: "``".data))))) ++ [backquote] := by
    simp only [fenced_body, List.append_assoc, List.cons_append, hbq3]
  have h1 : (fenced_body tag doc).dropWhile isPySpace = fenced_body tag doc := by
    rw [hcons, List.dropWhile_cons, if_neg (by decide)]
  have h2 : (fenced_body tag doc).reverse.dropWhile isPySpace = (fenced_body tag doc).reverse := by
    rw [hsnoc, reverse_snoc_head, List.dropWhile_cons, if_neg (by decide)]
  have hstrip : pyStrip (fenced_body tag doc) = fenced_body tag doc :=
    pyStrip_eq_self_of _ h1 h2
  rcases htag with rfl | rfl
  · -- no language tag
    have hr1 : pyReplace "```json".data [] (fenced_body [] doc) = fenced_body [] doc := by
      have hlen : ("```".data ++ '\n' :: (doc ++ ('\n' :: "```".data))).length =
          (doc.length + 5) + 3 := by
        simp [List.length_append]
      show pyReplace "```json".data [] ("```".data ++ '\n' :: (doc ++ ('\n' :: "```".data))) =
        "```".data ++ '\n' :: (doc ++ ('\n' :: "```".data))
      unfold pyReplace
      rw [hlen, pyReplaceFuel_json_skip_fence]
      congr 1
      have hshape : '\n' :: (doc ++ ('\n' :: "```".data)) =
          ('\n' :: (doc ++ ['\n'])) ++ "```".data := by
        simp [List.append_assoc]
      rw [hshape]
      have hfuel : doc.length + 5 = ('\n' :: (doc ++ ['\n'])).length + 3 := by
        simp [List.length_append]
      rw [hfuel,
        pyReplaceFuel_append_of_head_ne "```json".data [] backquote "``json".data rfl
          "```".data ('\n' :: (doc ++ ['\n'])) hmid 3]
      exact rfl
    have hr2 : pyReplace "```".data [] (fenced_body [] doc) = '\n' :: (doc ++ ['\n']) := by
      have hshape2 : fenced_body [] doc =
          "```".data ++ (('\n' :: (doc ++ ['\n'])) ++ "```".data) := by
        simp [fenced_body, List.append_assoc]
      rw [hshape2, pyReplace_head_match "```".data [] _ (by decide),
        pyReplace_append_of_head_ne "```".data [] backquote "``".data rfl
          ('\n' :: (doc ++ ['\n'])) "```".data hmid]
      simp
      exact rfl
    unfold cleaned_response
    rw [hstrip, hr1, hr2, pyStrip_newline_wrap doc hfront hback]
  · -- language tag "json"
    have hshape : fenced_body "json".data doc =
        "```json".data ++ (('\n' :: (doc ++ ['\n'])) ++ "```".data) := by
      simp [fenced_body, List.append_assoc]
    have hr1 : pyReplace "```json".data [] (fenced_body "json".data doc) =
        ('\n' :: (doc ++ ['\n'])) ++ "```".data := by
      rw [hshape, pyReplace_head_match "```json".data [] _ (by decide),
        pyReplace_append_of_head_ne "```json".data [] backquote "``json".data rfl
          ('\n' :: (doc ++ ['\n'])) "```".data hmid]
      exact rfl
    have hr2 : pyReplace "```".data [] (('\n' :: (doc ++ ['\n'])) ++ "```".data) =
        '\n' :: (doc ++ ['\n']) := by
      rw [pyReplace_append_of_head_ne "```".data [] backquote "``".data rfl
        ('\n' :: (doc ++ ['\n'])) "```".data hmid]
      simp
      exact rfl
    unfold cleaned_response
    rw [hstrip, hr1, hr2, pyStrip_newline_wrap doc hfront hback]

/-- Counterexample to C4: a JSON document fenced with the language tag
"javascript" is not stripped — the clean-up only removes the literal
"```json" and bare fences, so the tag text survives, the cleaned string is
not the inner document, and a decoder that accepts exactly the inner document
"[1, 2]" is never given it: the call returns the `None` sentinel instead of
the parsed value. -/
theorem c4_counterexample :
    cleaned_response ("```javascript\n[1, 2]\n```".data) = "javascript\n[1, 2]".data ∧
    cleaned_response ("```javascript\n[1, 2]\n```".data) ≠ "[1, 2]".data ∧
    sample_json_loads "[1, 2]".data = some 0 ∧
    (get_gemini_analysis (Except.ok ()) (Except.ok ⟨Except.ok "```javascript\n[1, 2]\n```".data⟩)
        sample_json_loads true).2 = Except.ok none := by
  refine ⟨by decide, by decide, rfl, rfl⟩

/-- C4 amended: for a response body that is a JSON document wrapped in
triple-backtick fences whose opening fence is bare or tagged exactly "json",
where the document contains no backquote and no leading or trailing
whitespace, the clean-up recovers exactly the inner document text, and
`get_gemini_analysis` with `is_json_output` returns its decoded value; for
any other language tag the tag text is left in place (see the
counterexample), the decode fails and the `None` sentinel is returned. -/
theorem c4_fence_stripping {α : Type} (doc tag : Str) (v : α)
    (json_loads : Str → Option α)
    (htag : tag = [] ∨ tag = "json".data) (hbq : ∀ c ∈ doc, c ≠ backquote)
    (hfront : doc.dropWhile isPySpace = doc)
    (hback : doc.reverse.dropWhile isPySpace = doc.reverse)
    (hloads : json_loads doc = some v) :
    cleaned_response (fenced_body tag doc) = doc ∧
    (get_gemini_analysis (Except.ok ()) (Except.ok ⟨Except.ok (fenced_body tag doc)⟩)
        json_loads true).2 = Except.ok (some (GemResult.json v)) := by
  have hc := cleaned_response_fenced doc tag htag hbq hfront hback
  refine ⟨hc, ?_⟩
  simp [get_gemini_analysis, hc, hloads]

/-- Witness for C4 amended: the document "[1, 2]" fenced with tag "json",
evaluated through the theorem itself. -/
theorem c4_fence_stripping_witness :
    cleaned_response (fenced_body "json".data "[1, 2]".data) = "[1, 2]".data :=
  (c4_fence_stripping "[1, 2]".data "json".data 0 sample_json_loads (Or.inr rfl)
    (by decide) (by decide) (by decide) (by decide)).1
